import Mathlib

/-!
Shallow embedding of the client-side conversation orchestrator of the
invoiceGeneratorUi repository, translated from
`src/components/ChatInterface.tsx` (the current variant, with language
support and progressive input disclosure) and `src/api/zohoService.ts`.

The React component's state hooks become fields of `ChatState`; the two
asynchronous handlers `handleSendMessage` and `handleFileUpload` and the
helper `resetChat` become state transformers that take the outcome of the
remote call as an explicit parameter (`TurnOutcome` / `OcrOutcome`).  The
nondeterministic clock reads (`Date.now()`, `toLocaleTimeString`) are
passed in as parameters `now : Nat` and `ts : String`.  Rendering-layer
side effects (`toast` notifications, scrolling, focus management) are not
part of the session state and are not modelled.
-/

/-! ## JavaScript string primitives

`String.prototype.toLowerCase` (ASCII fragment — every string the
component compares is ASCII), `String.prototype.trim`, and the
truthiness/`||`-default idioms used throughout the component. These are
modelled by structural recursion over the character list. -/

/-- ASCII fragment of JS `toLowerCase`, per character. -/
def asciiToLower (c : Char) : Char :=
  if 65 ≤ c.toNat ∧ c.toNat ≤ 90 then Char.ofNat (c.toNat + 32) else c

/-- JS `String.prototype.toLowerCase` (ASCII fragment). -/
def jsToLowerCase (s : String) : String := ⟨s.data.map asciiToLower⟩

/-- Whitespace stripped by JS `trim` (the forms occurring in chat input). -/
def isJsSpace (c : Char) : Bool := c = ' ' || c = '\t' || c = '\n' || c = '\r'

/-- Drop leading JS whitespace from a character list. -/
def dropSpaces : List Char → List Char
  | [] => []
  | c :: cs => if isJsSpace c then dropSpaces cs else c :: cs

/-- JS `String.prototype.trim`: strip whitespace from both ends. -/
def jsTrim (s : String) : String :=
  ⟨(dropSpaces (dropSpaces s.data).reverse).reverse⟩

/-- JS `a || d` on an optional string `a`: the default wins when `a` is
`undefined` or the empty string (both falsy). -/
def jsOr : Option String → String → String
  | some s, d => if s = "" then d else s
  | none, d => d

/-- JS template-literal interpolation of a possibly-undefined string. -/
def jsShow : Option String → String
  | some s => s
  | none => "undefined"

/-- JS truthiness of a possibly-undefined string. -/
def jsTruthy : Option String → Bool
  | some s => s != ""
  | none => false

/-! ## Data model (`ChatInterface.tsx`) -/

/-- The language union type `"en" | "kn"`. -/
inductive Lang where
  | en
  | kn
  deriving DecidableEq

/-- The `ConversationContext` interface: the opaque multi-turn state bag,
with the orchestrator-owned `language` field.  Absent keys are `none`;
the backend-defined values are kept as decoded strings / string maps,
which is all the orchestrator ever stores or forwards. -/
structure ConversationContext where
  status : Option String := none
  next_field : Option String := none
  customer_data : Option (List (String × String)) := none
  invoice_data : Option (List (String × String)) := none
  all_available_items : Option (List String) := none
  current_item_id : Option String := none
  current_item_name : Option String := none
  invoice_collection_sub_status : Option String := none
  return_flow : Option String := none
  return_phone : Option String := none
  return_invoice_data : Option (List (String × String)) := none
  extracted_contact_info : Option (List (String × String)) := none
  language : Option Lang := none
  deriving DecidableEq

/-- The object literal `{ language: language }`: every key absent except
the client's own language. -/
def langOnly (l : Lang) : ConversationContext := { language := some l }

/-- Rendered content of a chat entry (`text: React.ReactNode`): a plain
string, the JS `undefined` value (a `message`-less response assigned
as-is), or the `invoice_created` fragment carrying the PDF link with its
suggested download filename. -/
inductive MsgText where
  | plain (s : String)
  | jsUndefined
  | download (message : Option String) (pdfUrl : String) (downloadName : String)
  deriving DecidableEq

/-- The `Message` interface. -/
structure Message where
  id : String
  text : MsgText
  isBot : Bool
  timestamp : String
  deriving DecidableEq

/-- The decoded JSON body returned by `sendChatMessageToBot`
(`{ action, message?, context?, contact_id?, invoice_id?, pdf_url?,
extracted_data? }`); `extracted_data` is kept as its serialized form,
which is the only way the component uses it. -/
structure BackendResponse where
  action : String
  message : Option String := none
  context : Option ConversationContext := none
  contact_id : Option String := none
  invoice_id : Option String := none
  pdf_url : Option String := none
  extracted_data : Option String := none
  deriving DecidableEq

/-- The component's session state: the `useState` hooks of
`ChatInterface` (`language`, `messages`, `isTyping`,
`conversationContext`, `showChatInput`). -/
structure ChatState where
  language : Lang
  messages : List Message
  isTyping : Bool
  conversationContext : ConversationContext
  showChatInput : Bool
  deriving DecidableEq

/-- One invocation of `sendChatMessageToBot(text, sessionId, context)`. -/
structure TurnRequest where
  text : String
  session_id : String
  context : ConversationContext
  deriving DecidableEq

/-- Outcome of the awaited `sendChatMessageToBot` call: the decoded
response, or a rejection carrying `error.message` (possibly absent). -/
inductive TurnOutcome where
  | success (resp : BackendResponse)
  | failure (errMessage : Option String)
  deriving DecidableEq

/-- Outcome of the awaited `uploadImageForOcr` call: `{ text }` on
success, or a rejection carrying `error.message`. -/
inductive OcrOutcome where
  | success (text : String)
  | failure (errMessage : Option String)
  deriving DecidableEq

/-- Result of running a handler: the final component state, the
`sendChatMessageToBot` calls it issued, and the text of the synthetic
re-submission it scheduled with `setTimeout` (OCR path), if any. -/
structure TurnEffects where
  state : ChatState
  calls : List TurnRequest
  pendingSubmission : Option String := none
  deriving DecidableEq

/-! ## Constants of `ChatInterface.tsx` -/

/-- `const SESSION_ID = "my_unique_chat_session"`. -/
def SESSION_ID : String := "my_unique_chat_session"

/-- The greeting text of `getInitialBotMessage`, by language. -/
def greetingText : Lang → String
  | .en => "Hello! I'm your Invoice Generator AI assistant. How can I assist you today?"
  | .kn => "ನಮಸ್ಕಾರ! ನಾನು ನಿಮ್ಮ ಇನ್‌ವಾಯ್ಸ್ ಜನರೇಟರ್ AI ಸಹಾಯಕ. ಇಂದು ನಾನು ನಿಮಗೆ ಹೇಗೆ ಸಹಾಯ ಮಾಡಬಹುದು?"

/-- `getInitialBotMessage(lang)`: id `"1"`, bot flag set, greeting text,
current display time `ts`. -/
def getInitialBotMessage (lang : Lang) (ts : String) : Message :=
  { id := "1", text := .plain (greetingText lang), isBot := true, timestamp := ts }

/-- The `initialCommands` array of `handleSendMessage`. -/
def initialCommands : List String :=
  ["create invoice", "create customer", "show items", "list items", "what items"]

/-- The actions for which `handleSendMessage` clears the context when the
response carries no `context` object (the `||`-chain guarding
`setConversationContext({ language: language })`).  Note that
`customer_creation_error` is absent, while `customer_exists` and the
invoice outcomes are present. -/
def clearContextActions : List String :=
  ["customer_created", "customer_exists", "customer_creation_failed", "reset_success",
   "invoice_created", "invoice_creation_failed", "invoice_creation_error", "list_items"]

/-- Every `case` label of the `switch (backendResponse.action)` statement;
an action outside this list falls to the `default` diagnostic arm. -/
def handledActions : List String :=
  ["general_response", "list_items", "ask_question", "request_invoice_info",
   "customer_created", "customer_exists", "customer_creation_failed",
   "customer_creation_error", "invoice_created", "invoice_creation_failed",
   "invoice_creation_error", "reset_success", "file_uploaded", "error",
   "customer_lookup_error"]

/-! ## Context update and action interpretation -/

/-- The context-update block of `handleSendMessage`: replace wholesale
with the returned context but keep `prev.language`; with no returned
context, clear to `{ language: language }` for the flow-completion
actions and leave the context untouched otherwise. -/
def updateContextOnResponse (language : Lang) (prev : ConversationContext)
    (resp : BackendResponse) : ConversationContext :=
  match resp.context with
  | some c => { c with language := prev.language }
  | none =>
      if resp.action ∈ clearContextActions then langOnly language else prev

/-- Direct assignment `botResponseText = backendResponse.message` (the
assigned value may be JS `undefined`). -/
def optMsgText : Option String → MsgText
  | some s => .plain s
  | none => .jsUndefined

/-- The `extracted_data` block appended for `file_uploaded` (its JSON
serialization is carried in the response field). -/
def extractedDataBlock : Option String → String
  | some d => "\nExtracted data: \n```json\n" ++ d ++ "\n```"
  | none => ""

/-- Models `JSON.stringify(backendResponse)` in the default diagnostic arm
(no claim observes the exact serialization format). -/
def stringifyResponse (resp : BackendResponse) : String :=
  "\x7b\"action\":\"" ++ resp.action ++ "\""
    ++ (match resp.message with
        | some m => ",\"message\":\"" ++ m ++ "\""
        | none => "")
    ++ "\x7d"

/-- The `switch (backendResponse.action)` statement of
`handleSendMessage`: the bot-visible text for each action, starting from
the initialized value "I'm not sure how to respond to that." (which every
arm overwrites, so only the `default` arm's own text survives there). -/
def interpretBotText (resp : BackendResponse) : MsgText :=
  if resp.action = "general_response" then optMsgText resp.message
  else if resp.action = "list_items" then optMsgText resp.message
  else if resp.action = "ask_question" then optMsgText resp.message
  else if resp.action = "request_invoice_info" then optMsgText resp.message
  else if resp.action = "customer_created" then
    .plain (jsOr resp.message ("Customer created with ID: " ++ jsShow resp.contact_id))
  else if resp.action = "customer_exists" then
    .plain (jsOr resp.message ("Customer already exists with ID: " ++ jsShow resp.contact_id))
  else if resp.action = "customer_creation_failed" ∨ resp.action = "customer_creation_error" then
    .plain (jsOr resp.message "Failed to complete customer creation.")
  else if resp.action = "invoice_created" then
    if jsTruthy resp.invoice_id && jsTruthy resp.pdf_url then
      .download resp.message (jsShow resp.pdf_url)
        ("invoice_" ++ jsShow resp.invoice_id ++ ".pdf")
    else
      .plain (jsOr resp.message
        ("Invoice created successfully with ID: " ++ jsShow resp.invoice_id
          ++ ". PDF processed on backend."))
  else if resp.action = "invoice_creation_failed" ∨ resp.action = "invoice_creation_error" then
    .plain (jsOr resp.message "Failed to complete invoice creation.")
  else if resp.action = "reset_success" then
    .plain (jsOr resp.message "Chat has been reset.")
  else if resp.action = "file_uploaded" then
    .plain (jsOr resp.message "File uploaded successfully."
      ++ extractedDataBlock resp.extracted_data)
  else if resp.action = "error" ∨ resp.action = "customer_lookup_error" then
    .plain ("❌ Error: " ++ jsOr resp.message "An unknown error occurred.")
  else
    .plain ("Backend response received, but action '" ++ resp.action
      ++ "' is unhandled. Message: " ++ jsOr resp.message (stringifyResponse resp))

/-! ## Message constructors used by the handlers -/

/-- The user entry appended at the top of `handleSendMessage`
(`id: Date.now().toString()`). -/
def mkUserMessage (text : String) (now : Nat) (ts : String) : Message :=
  { id := toString now, text := .plain text, isBot := false, timestamp := ts }

/-- A bot entry appended after a successful call
(`id: (Date.now() + 1).toString()`). -/
def mkBotMessage (t : MsgText) (now : Nat) (ts : String) : Message :=
  { id := toString (now + 1), text := t, isBot := true, timestamp := ts }

/-- Text of the catch-block entry of `handleSendMessage`. -/
def connectFailureText (err : Option String) : String :=
  "❌ Failed to connect to backend or process request: " ++ jsOr err "Unknown error"
    ++ ". Please check console for details."

/-- The catch-block entry of `handleSendMessage`
(`id: Date.now().toString()`). -/
def connectFailureMessage (err : Option String) (now : Nat) (ts : String) : Message :=
  { id := toString now, text := .plain (connectFailureText err), isBot := true, timestamp := ts }

/-- The user entry appended at the top of `handleFileUpload`. -/
def uploadingMessage (fileName : String) (now : Nat) (ts : String) : Message :=
  { id := toString now, text := .plain ("📎 Uploading and processing: " ++ fileName ++ "..."),
    isBot := false, timestamp := ts }

/-- The bot entry quoting a non-empty OCR extraction. -/
def extractedTextMessage (text : String) (now : Nat) (ts : String) : Message :=
  mkBotMessage (.plain ("🤖 Extracted from image: \"" ++ text ++ "\"")) now ts

/-- The bot entry reporting an empty OCR extraction. -/
def noTextMessage (fileName : String) (now : Nat) (ts : String) : Message :=
  mkBotMessage (.plain ("❌ No text could be extracted from \"" ++ fileName
    ++ "\". Please try another image or type your request.")) now ts

/-- The catch-block entry of `handleFileUpload`. -/
def ocrFailureMessage (fileName : String) (err : Option String) (now : Nat) (ts : String) :
    Message :=
  mkBotMessage (.plain ("❌ Failed to perform OCR on \"" ++ fileName ++ "\": "
    ++ jsOr err "Unknown error" ++ ". Please ensure Tesseract/Poppler are installed on the backend."))
    now ts

/-! ## The handlers -/

/-- The argument triple of the `sendChatMessageToBot` call inside
`handleSendMessage`: the submitted text, `SESSION_ID`, and
`{ ...conversationContext, language: language }` as read at call time
(nothing before the call mutates the context). -/
def turnRequest (st : ChatState) (text : String) : TurnRequest :=
  { text := text, session_id := SESSION_ID,
    context := { st.conversationContext with language := some st.language } }

/-- `handleSendMessage(messageText)` of `ChatInterface.tsx` given the
outcome of its single transport call: append the user entry; flip
`showChatInput` on a bootstrap-command match
(`initialCommands.includes(messageText.toLowerCase().trim())`); set
`isTyping`; then either run the context update and the action switch and
append the bot entry, or (catch) append the failure entry and clear the
context to `{ language }`; finally clear `isTyping`. -/
def handleSendMessage (st : ChatState) (messageText : String) (outcome : TurnOutcome)
    (now : Nat) (ts : String) : TurnEffects :=
  let afterUser := { st with messages := st.messages ++ [mkUserMessage messageText now ts] }
  let afterCmd :=
    if jsTrim (jsToLowerCase messageText) ∈ initialCommands then
      { afterUser with showChatInput := true }
    else afterUser
  let afterTyping := { afterCmd with isTyping := true }
  match outcome with
  | .success resp =>
      let afterCtx := { afterTyping with
        conversationContext :=
          updateContextOnResponse afterTyping.language afterTyping.conversationContext resp }
      let afterBot := { afterCtx with
        messages := afterCtx.messages ++ [mkBotMessage (interpretBotText resp) now ts] }
      { state := { afterBot with isTyping := false },
        calls := [turnRequest st messageText] }
  | .failure err =>
      let afterErr := { afterTyping with
        messages := afterTyping.messages ++ [connectFailureMessage err now ts] }
      let afterClear := { afterErr with conversationContext := langOnly afterErr.language }
      { state := { afterClear with isTyping := false },
        calls := [turnRequest st messageText] }

/-- `handleFileUpload(file)` of `ChatInterface.tsx` given the outcome of
`uploadImageForOcr`: append the uploading entry and set `isTyping`; on
success with truthy text, reveal the input, append the extraction notice
and schedule (`setTimeout`) the synthetic `handleSendMessage` of that
text; on success with empty text, append the single no-extraction entry;
on rejection (catch), append the single OCR-failure entry — the context
is not touched on any path; finally clear `isTyping`. -/
def handleFileUpload (st : ChatState) (fileName : String) (outcome : OcrOutcome)
    (now : Nat) (ts : String) : TurnEffects :=
  let afterUser := { st with messages := st.messages ++ [uploadingMessage fileName now ts] }
  let afterTyping := { afterUser with isTyping := true }
  match outcome with
  | .success text =>
      if text ≠ "" then
        let afterShow := { afterTyping with showChatInput := true }
        let afterNotice := { afterShow with
          messages := afterShow.messages ++ [extractedTextMessage text now ts] }
        { state := { afterNotice with isTyping := false },
          calls := [],
          pendingSubmission := some text }
      else
        let afterNone := { afterTyping with
          messages := afterTyping.messages ++ [noTextMessage fileName now ts] }
        { state := { afterNone with isTyping := false }, calls := [] }
  | .failure err =>
      let afterErr := { afterTyping with
        messages := afterTyping.messages ++ [ocrFailureMessage fileName err now ts] }
      { state := { afterErr with isTyping := false }, calls := [] }

/-- The fixed notification `sendChatMessageToBot("reset_conversation_command",
SESSION_ID, { language: language })` issued by `resetChat`. -/
def resetNotifyRequest (lang : Lang) : TurnRequest :=
  { text := "reset_conversation_command", session_id := SESSION_ID, context := langOnly lang }

/-- `resetChat()` of `ChatInterface.tsx`: replace the message log with the
single language-selected greeting, replace the context with
`{ language: language }`, hide the input, and fire the best-effort
backend notification whose `.then` handler does nothing and whose
`.catch` handler only logs — neither touches component state, so the
local reset stands whatever the notification's outcome. -/
def resetChat (st : ChatState) (ts : String) (notifyOutcome : TurnOutcome) : TurnEffects :=
  let afterLocal := { st with
    messages := [getInitialBotMessage st.language ts],
    conversationContext := langOnly st.language,
    showChatInput := false }
  let afterNotify :=
    match notifyOutcome with
    | .success _ => afterLocal
    | .failure _ => afterLocal
  { state := afterNotify, calls := [resetNotifyRequest st.language] }

/-! ## Concrete fixtures for counterexamples and witnesses -/

/-- A mid-flow context as the backend builds it while collecting customer
data. -/
def sampleCtx : ConversationContext :=
  { status := some "collecting_customer_data", next_field := some "phone",
    language := some Lang.en }

/-- A session mid-flow: greeting already shown, input revealed, context
holding partial customer data. -/
def stA : ChatState :=
  { language := Lang.en,
    messages := [getInitialBotMessage Lang.en "09:00"],
    isTyping := false,
    conversationContext := sampleCtx,
    showChatInput := true }

/-- A context as a server might echo it back, language included. -/
def serverCtx : ConversationContext :=
  { status := some "collecting_invoice_data", next_field := some "item",
    language := some Lang.kn }

/-! ## Characterization lemmas: one equation per handler path -/

/-- Final state of a successful text turn. -/
theorem handleSendMessage_success_state (st : ChatState) (text : String)
    (resp : BackendResponse) (now : Nat) (ts : String) :
    (handleSendMessage st text (.success resp) now ts).state
      = { st with
          messages := st.messages
            ++ [mkUserMessage text now ts, mkBotMessage (interpretBotText resp) now ts],
          conversationContext := updateContextOnResponse st.language st.conversationContext resp,
          isTyping := false,
          showChatInput :=
            if jsTrim (jsToLowerCase text) ∈ initialCommands then true else st.showChatInput } := by
  by_cases h : jsTrim (jsToLowerCase text) ∈ initialCommands <;>
    simp [handleSendMessage, h]

/-- Final state of a rejected text turn. -/
theorem handleSendMessage_failure_state (st : ChatState) (text : String)
    (err : Option String) (now : Nat) (ts : String) :
    (handleSendMessage st text (.failure err) now ts).state
      = { st with
          messages := st.messages
            ++ [mkUserMessage text now ts, connectFailureMessage err now ts],
          conversationContext := langOnly st.language,
          isTyping := false,
          showChatInput :=
            if jsTrim (jsToLowerCase text) ∈ initialCommands then true else st.showChatInput } := by
  by_cases h : jsTrim (jsToLowerCase text) ∈ initialCommands <;>
    simp [handleSendMessage, h]

/-- Every run of `handleSendMessage` issues exactly its one transport call. -/
theorem handleSendMessage_calls (st : ChatState) (text : String) (o : TurnOutcome)
    (now : Nat) (ts : String) :
    (handleSendMessage st text o now ts).calls = [turnRequest st text] := by
  cases o <;> by_cases h : jsTrim (jsToLowerCase text) ∈ initialCommands <;>
    simp [handleSendMessage, h]

/-- Full effects of an OCR upload whose extraction is non-empty. -/
theorem handleFileUpload_success_nonempty (st : ChatState) (fileName text : String)
    (now : Nat) (ts : String) (h : text ≠ "") :
    handleFileUpload st fileName (.success text) now ts
      = { state := { st with
            messages := st.messages
              ++ [uploadingMessage fileName now ts, extractedTextMessage text now ts],
            isTyping := false,
            showChatInput := true },
          calls := [],
          pendingSubmission := some text } := by
  simp [handleFileUpload, h]

/-- Full effects of an OCR upload whose extraction is empty. -/
theorem handleFileUpload_success_empty (st : ChatState) (fileName : String)
    (now : Nat) (ts : String) :
    handleFileUpload st fileName (.success "") now ts
      = { state := { st with
            messages := st.messages
              ++ [uploadingMessage fileName now ts, noTextMessage fileName now ts],
            isTyping := false },
          calls := [],
          pendingSubmission := none } := by
  simp [handleFileUpload]

/-- Full effects of a rejected OCR upload. -/
theorem handleFileUpload_failure (st : ChatState) (fileName : String)
    (err : Option String) (now : Nat) (ts : String) :
    handleFileUpload st fileName (.failure err) now ts
      = { state := { st with
            messages := st.messages
              ++ [uploadingMessage fileName now ts, ocrFailureMessage fileName err now ts],
            isTyping := false },
          calls := [],
          pendingSubmission := none } := by
  simp [handleFileUpload]

/-- Full effects of `resetChat`, independent of the notification outcome. -/
theorem resetChat_eq (st : ChatState) (ts : String) (o : TurnOutcome) :
    resetChat st ts o
      = { state := { st with
            messages := [getInitialBotMessage st.language ts],
            conversationContext := langOnly st.language,
            showChatInput := false },
          calls := [resetNotifyRequest st.language],
          pendingSubmission := none } := by
  cases o <;> rfl

/-! ## Claim theorems -/

/-- C6 (confirmed): every user-initiated turn appends exactly one user
entry followed by exactly one bot entry to the Message Log — whether the
transport call succeeds (any action, including backend-reported logical
failures) or rejects — and `isTyping` (the busy flag) is false after the
turn in every case. -/
theorem C6_turn_appends_exactly_one_pair (st : ChatState) (text : String)
    (o : TurnOutcome) (now : Nat) (ts : String) :
    ∃ bot : Message,
      (handleSendMessage st text o now ts).state.messages
        = st.messages ++ [mkUserMessage text now ts, bot]
      ∧ bot.isBot = true
      ∧ (mkUserMessage text now ts).isBot = false
      ∧ (handleSendMessage st text o now ts).state.isTyping = false := by
  cases o with
  | success resp =>
      exact ⟨mkBotMessage (interpretBotText resp) now ts,
        by rw [handleSendMessage_success_state], rfl, rfl,
        by rw [handleSendMessage_success_state]⟩
  | failure err =>
      exact ⟨connectFailureMessage err now ts,
        by rw [handleSendMessage_failure_state], rfl, rfl,
        by rw [handleSendMessage_failure_state]⟩

/-- C7 (confirmed): on every text submission, the trimmed and
case-folded text is matched against the fixed `initialCommands` set
independently of the transport outcome: a match leaves the input
visible, a non-match leaves `showChatInput` unchanged. -/
theorem C7_bootstrap_command_detection (st : ChatState) (text : String)
    (o : TurnOutcome) (now : Nat) (ts : String) :
    (handleSendMessage st text o now ts).state.showChatInput
      = if jsTrim (jsToLowerCase text) ∈ initialCommands then true
        else st.showChatInput := by
  cases o with
  | success resp => rw [handleSendMessage_success_state]
  | failure err => rw [handleSendMessage_failure_state]

/-- C8 (confirmed): an upload resolving with empty extracted text
appends exactly one bot "nothing extracted" entry after the user's
uploading entry, schedules no synthetic submission, leaves the context
and the input visibility unchanged, and releases the busy flag. -/
theorem C8_empty_extraction_is_benign (st : ChatState) (fileName : String)
    (now : Nat) (ts : String) :
    (handleFileUpload st fileName (.success "") now ts).state.messages
      = st.messages ++ [uploadingMessage fileName now ts, noTextMessage fileName now ts]
    ∧ (handleFileUpload st fileName (.success "") now ts).pendingSubmission = none
    ∧ (handleFileUpload st fileName (.success "") now ts).state.conversationContext
        = st.conversationContext
    ∧ (handleFileUpload st fileName (.success "") now ts).state.isTyping = false
    ∧ (handleFileUpload st fileName (.success "") now ts).state.showChatInput
        = st.showChatInput := by
  rw [handleFileUpload_success_empty]
  exact ⟨rfl, rfl, rfl, rfl, rfl⟩

/-- C9 (confirmed): `resetChat` is idempotent — running it twice yields
the same state as running it once: the single language-selected
greeting, the `{ language }` context and a hidden input — and the
outcome of the best-effort backend notification (success or transport
failure) never alters the already-applied local reset. -/
theorem C9_reset_protocol_idempotent (st : ChatState) (ts : String)
    (o₁ o₂ : TurnOutcome) :
    (resetChat (resetChat st ts o₁).state ts o₂).state = (resetChat st ts o₁).state
    ∧ (resetChat st ts o₁).state = (resetChat st ts o₂).state
    ∧ (resetChat st ts o₁).state.messages = [getInitialBotMessage st.language ts]
    ∧ (resetChat st ts o₁).state.conversationContext = langOnly st.language
    ∧ (resetChat st ts o₁).state.showChatInput = false := by
  cases o₁ <;> cases o₂ <;> exact ⟨rfl, rfl, rfl, rfl, rfl⟩

/-- C10 (confirmed): within turn execution and OCR ingestion the input
visibility is monotone — no outcome of either handler ever hides a
visible input — and the only operation that sets it back to hidden is
`resetChat`. -/
theorem C10_input_visibility_monotone (st : ChatState) (text fileName : String)
    (o : TurnOutcome) (oc : OcrOutcome) (o' : TurnOutcome) (now : Nat) (ts : String) :
    st.showChatInput ≤ (handleSendMessage st text o now ts).state.showChatInput
    ∧ st.showChatInput ≤ (handleFileUpload st fileName oc now ts).state.showChatInput
    ∧ (resetChat st ts o').state.showChatInput = false := by
  refine ⟨?_, ?_, ?_⟩
  · cases o with
    | success resp =>
        rw [handleSendMessage_success_state]
        dsimp only
        split
        · exact Bool.le_true _
        · exact le_refl _
    | failure err =>
        rw [handleSendMessage_failure_state]
        dsimp only
        split
        · exact Bool.le_true _
        · exact le_refl _
  · cases oc with
    | success t =>
        rcases eq_or_ne t "" with h | h
        · subst h
          rw [handleFileUpload_success_empty]
        · rw [handleFileUpload_success_nonempty st fileName t now ts h]
          exact Bool.le_true _
    | failure err =>
        rw [handleFileUpload_failure]
  · cases o' <;> rfl

/-- C1 (counterexample): a turn with no returned context whose action is
`customer_creation_error` — and likewise one with an unrecognized
action — does NOT clear the Session Context Store to `{ language }`: the
mid-flow context survives untouched. -/
theorem C1_counterexample :
    (handleSendMessage stA "add him"
        (.success { action := "customer_creation_error" }) 5 "10:05").state.conversationContext
      ≠ langOnly Lang.en
    ∧ (handleSendMessage stA "hello"
        (.success { action := "mystery_action" }) 5 "10:05").state.conversationContext
      ≠ langOnly Lang.en := by
  decide

/-- C1 (amended): for a turn whose response carries no `context` object
and whose action is `customer_creation_error` or any action outside the
switch's vocabulary, the stored context is left completely unchanged;
the clear-to-language-only policy applies only to the eight actions of
the explicit `||`-chain (`clearContextActions`). -/
theorem C1_unlisted_actions_leave_context (st : ChatState) (text : String)
    (resp : BackendResponse) (now : Nat) (ts : String)
    (hctx : resp.context = none)
    (hact : resp.action = "customer_creation_error" ∨ resp.action ∉ handledActions) :
    (handleSendMessage st text (.success resp) now ts).state.conversationContext
      = st.conversationContext := by
  have hmem : resp.action ∉ clearContextActions := by
    rcases hact with h | h
    · rw [h]; decide
    · intro hmem
      apply h
      have hsub : ∀ a ∈ clearContextActions, a ∈ handledActions := by decide
      exact hsub _ hmem
  rw [handleSendMessage_success_state]
  simp [updateContextOnResponse, hctx, hmem]

/-- C1 (witness): the amended theorem at a concrete mid-flow state and a
context-less `customer_creation_error` response. -/
theorem C1_unlisted_actions_leave_context_witness :
    ({ action := "customer_creation_error" } : BackendResponse).context = none
    ∧ (handleSendMessage stA "add him"
        (.success { action := "customer_creation_error" }) 5 "10:05").state.conversationContext
      = stA.conversationContext :=
  ⟨rfl, C1_unlisted_actions_leave_context stA "add him" _ 5 "10:05" rfl (Or.inl rfl)⟩

/-- C2 (confirmed): when the response carries a `context` object and the
stored language agrees with the client's current language (the invariant
every reset, clear and merge maintains), the stored context after the
turn is exactly the server's object with its `language` field overwritten
by the client's current language — so no server-returned context can ever
change the stored language. -/
theorem C2_server_context_merge (st : ChatState) (text : String)
    (resp : BackendResponse) (c : ConversationContext) (now : Nat) (ts : String)
    (hc : resp.context = some c)
    (hl : st.conversationContext.language = some st.language) :
    (handleSendMessage st text (.success resp) now ts).state.conversationContext
      = { c with language := some st.language } := by
  rw [handleSendMessage_success_state]
  simp [updateContextOnResponse, hc, hl]

/-- C2 (witness): a server context echoing language `kn` is stored
wholesale but with the client's `en` kept. -/
theorem C2_server_context_merge_witness :
    stA.conversationContext.language = some stA.language
    ∧ (handleSendMessage stA "two pens"
        (.success { action := "ask_question", message := some "Quantity?",
                    context := some serverCtx }) 7 "10:06").state.conversationContext
      = { serverCtx with language := some stA.language } :=
  ⟨rfl, C2_server_context_merge stA "two pens" _ serverCtx 7 "10:06" rfl rfl⟩

/-- C3 (counterexample): a rejected `uploadForExtraction` call does NOT
reset the conversation context to `{ language }` — the mid-flow context
survives the OCR failure untouched. -/
theorem C3_counterexample :
    (handleFileUpload stA "receipt.png"
        (.failure (some "Network Error")) 5 "10:07").state.conversationContext
      ≠ langOnly stA.language := by
  decide

/-- C3 (amended): a rejected `sendTurn` appends exactly one bot entry
carrying the raw error detail and resets the context to `{ language }`;
a rejected `uploadForExtraction` appends exactly one bot entry carrying
the raw error detail but leaves the conversation context unchanged. -/
theorem C3_transport_failure_effects (st : ChatState) (text fileName : String)
    (err err' : Option String) (now : Nat) (ts : String) :
    ((handleSendMessage st text (.failure err) now ts).state.messages
        = st.messages ++ [mkUserMessage text now ts, connectFailureMessage err now ts]
      ∧ (handleSendMessage st text (.failure err) now ts).state.conversationContext
        = langOnly st.language)
    ∧ ((handleFileUpload st fileName (.failure err') now ts).state.messages
        = st.messages
            ++ [uploadingMessage fileName now ts, ocrFailureMessage fileName err' now ts]
      ∧ (handleFileUpload st fileName (.failure err') now ts).state.conversationContext
        = st.conversationContext) := by
  rw [handleSendMessage_failure_state, handleFileUpload_failure]
  exact ⟨⟨rfl, rfl⟩, rfl, rfl⟩

/-- C4 (counterexample): a literal `"  RESET "` submission is NOT
short-circuited: `sendChatMessageToBot` is invoked with exactly that
text, and the resulting session state is not the Reset Protocol's. -/
theorem C4_counterexample :
    (handleSendMessage stA "  RESET "
        (.success { action := "reset_success" }) 5 "t").calls
      = [turnRequest stA "  RESET "]
    ∧ (handleSendMessage stA "  RESET "
        (.success { action := "reset_success" }) 5 "t").state
      ≠ (resetChat stA "t" (.success { action := "reset_success" })).state := by
  constructor
  · rfl
  · decide

/-- C4 (amended): a submission that trims and case-folds to `"reset"`
receives no special handling — it is dispatched to the transport layer
as the turn's single `sendChatMessageToBot` call, like any other text
(the short-circuit exists only in an older variant of the component). -/
theorem C4_reset_text_reaches_transport (st : ChatState) (text : String)
    (o : TurnOutcome) (now : Nat) (ts : String)
    (h : jsTrim (jsToLowerCase text) = "reset") :
    (handleSendMessage st text o now ts).calls = [turnRequest st text] :=
  handleSendMessage_calls st text o now ts

/-- C4 (witness): the amended theorem at the concrete input `"  RESET "`. -/
theorem C4_reset_text_reaches_transport_witness :
    jsTrim (jsToLowerCase "  RESET ") = "reset"
    ∧ (handleSendMessage stA "  RESET "
        (.success { action := "general_response", message := some "Hi" }) 5 "t").calls
      = [turnRequest stA "  RESET "] :=
  ⟨by decide,
    C4_reset_text_reaches_transport stA "  RESET " _ 5 "t" (by decide)⟩

/-- Helper: the switch's `reset_success` arm only picks the bot text. -/
theorem interpretBotText_reset_success (resp : BackendResponse)
    (h : resp.action = "reset_success") :
    interpretBotText resp = .plain (jsOr resp.message "Chat has been reset.") := by
  simp [interpretBotText, h]

/-- C5 (counterexample): a `reset_success` response does NOT perform the
full local reset: the Message Log is not replaced by the single greeting
and the input is not hidden. -/
theorem C5_counterexample :
    ¬ ((handleSendMessage stA "please reset"
          (.success { action := "reset_success" }) 5 "t").state.messages
        = [getInitialBotMessage stA.language "t"]
      ∧ (handleSendMessage stA "please reset"
          (.success { action := "reset_success" }) 5 "t").state.conversationContext
        = langOnly stA.language
      ∧ (handleSendMessage stA "please reset"
          (.success { action := "reset_success" }) 5 "t").state.showChatInput
        = false) := by
  decide

/-- C5 (amended): on a `reset_success` response with no returned context
the orchestrator only clears the context to `{ language }` and appends
the "Chat has been reset." (or `message`) bot entry; the Message Log is
not replaced, and the input visibility follows the ordinary
bootstrap-command rule instead of being hidden — the full local reset
runs only through `resetChat` (user-triggered reset or language change). -/
theorem C5_reset_success_is_partial (st : ChatState) (text : String)
    (resp : BackendResponse) (now : Nat) (ts : String)
    (ha : resp.action = "reset_success") (hctx : resp.context = none) :
    (handleSendMessage st text (.success resp) now ts).state.conversationContext
      = langOnly st.language
    ∧ (handleSendMessage st text (.success resp) now ts).state.messages
        = st.messages ++ [mkUserMessage text now ts,
            mkBotMessage (.plain (jsOr resp.message "Chat has been reset.")) now ts]
    ∧ (handleSendMessage st text (.success resp) now ts).state.showChatInput
        = (if jsTrim (jsToLowerCase text) ∈ initialCommands then true
           else st.showChatInput) := by
  have hmem : resp.action ∈ clearContextActions := by rw [ha]; decide
  refine ⟨?_, ?_, ?_⟩
  · rw [handleSendMessage_success_state]
    simp [updateContextOnResponse, hctx, hmem]
  · rw [handleSendMessage_success_state, interpretBotText_reset_success resp ha]
  · rw [handleSendMessage_success_state]

/-- C5 (witness): the amended theorem at a concrete mid-flow state and a
context-less `reset_success` response. -/
theorem C5_reset_success_is_partial_witness :
    ({ action := "reset_success" } : BackendResponse).action = "reset_success"
    ∧ ((handleSendMessage stA "please reset"
          (.success { action := "reset_success" }) 5 "t").state.conversationContext
        = langOnly stA.language
      ∧ (handleSendMessage stA "please reset"
          (.success { action := "reset_success" }) 5 "t").state.messages
          = stA.messages ++ [mkUserMessage "please reset" 5 "t",
              mkBotMessage (.plain (jsOr none "Chat has been reset.")) 5 "t"]
      ∧ (handleSendMessage stA "please reset"
          (.success { action := "reset_success" }) 5 "t").state.showChatInput
          = (if jsTrim (jsToLowerCase "please reset") ∈ initialCommands then true
             else stA.showChatInput)) :=
  ⟨rfl, C5_reset_success_is_partial stA "please reset" _ 5 "t" rfl rfl⟩
